import Mathlib

/-
Verification of the Electric Kiwi integration's coordinator and sensor layer
(custom_components/electric_kiwi). The Python source is shallowly embedded:
time-of-day values are minutes since midnight (Nat), naive datetimes are a
(day, time-of-day) pair, remote calls are a (duration, result) record, and a
coordinator's mutable attributes become an explicit state record threaded
through each operation.
-/

namespace ElectricKiwi

/-- A naive local datetime: calendar day (as an integer day number) plus a
time-of-day in minutes since midnight.  `datetime.combine`/`astimezone` in the
source produce such values; `astimezone` with the one fixed default timezone is
order-preserving, so it is dropped from the model. -/
structure DateTime where
  day : Int
  tod : Nat
deriving DecidableEq, Repr

/-- Strict `<` on datetimes (lexicographic on day, then time-of-day), the
comparison `end_time < datetime.now()` performs in sensor.py. -/
def DateTime.ltb (a b : DateTime) : Bool :=
  a.day < b.day || (a.day == b.day && a.tod < b.tod)

/-- `value + timedelta(days=1)`: move a naive datetime forward by whole days. -/
def DateTime.addDays (a : DateTime) (n : Int) : DateTime :=
  ⟨a.day + n, a.tod⟩

/-- `datetime.combine(datetime.today(), t)`: attach a time-of-day to a day. -/
def datetime_combine (day : Int) (tod : Nat) : DateTime :=
  ⟨day, tod⟩

/-- The selected-interval payload returned by the remote API.  In the source it
is `Hop` with `hop.start.start_time` and `hop.end.end_time` as 12-hour-clock
strings; here both are already parsed to minutes since midnight (the nesting
through the `start`/`end` sub-objects carries no further data). -/
structure Hop where
  start_time : Nat
  end_time : Nat
deriving DecidableEq, Repr

/-- One HOP sensor description from `HOP_SENSOR_TYPE` in sensor.py: its
`value_func`, a function of the selected Hop and today's date. -/
structure ElectricKiwiHOPSensorEntityDescription where
  value_func : Hop → Int → DateTime

/-- The "Hour of free power start" description: combine today with the parsed
`hop.start.start_time` (sensor.py lines 112-119). -/
def hop_start_sensor : ElectricKiwiHOPSensorEntityDescription :=
  ⟨fun hop today => datetime_combine today hop.start_time⟩

/-- The "Hour of free power end" description: combine today with the parsed
`hop.end.end_time` (sensor.py lines 120-128). -/
def hop_end_sensor : ElectricKiwiHOPSensorEntityDescription :=
  ⟨fun hop today => datetime_combine today hop.end_time⟩

/-- The `HOP_SENSOR_TYPE` tuple of sensor.py. -/
def HOP_SENSOR_TYPE : List ElectricKiwiHOPSensorEntityDescription :=
  [hop_start_sensor, hop_end_sensor]

/-- `ElectricKiwiHOPEntity.native_value` (sensor.py lines 262-278): compute the
description's value for today, recompute the interval's end time for today,
and if that end time is strictly before now, return the value plus one day. -/
def hop_native_value (desc : ElectricKiwiHOPSensorEntityDescription)
    (hop : Hop) (now : DateTime) : DateTime :=
  let value := desc.value_func hop now.day
  let end_time := datetime_combine now.day hop.end_time
  if DateTime.ltb end_time now then value.addDays 1 else value

/-- Errors raised by the remote API client: `AuthException` or a generic
`ApiException` carrying a message. -/
inductive RemoteError
  | auth
  | api (msg : String)
deriving DecidableEq, Repr

/-- One remote call as the coordinator observes it: how long it runs before
completing or raising, and its outcome. -/
structure RemoteCall (α : Type) where
  duration : Nat
  result : Except RemoteError α

/-- What escapes a coordinator's `_async_update_data` on failure:
`ConfigEntryAuthFailed` (re-auth required), `UpdateFailed` with a message, or
an uncaught `asyncio.TimeoutError` from `async_timeout.timeout(60)`. -/
inductive UpdateError
  | configEntryAuthFailed
  | updateFailed (msg : String)
  | timeoutError
deriving DecidableEq, Repr

/-- Modelled from the spec: the host scheduler treats `ConfigEntryAuthFailed`
as the authentication-failure condition (stop retries, re-authenticate). -/
def is_reauth_condition : UpdateError → Bool
  | .configEntryAuthFailed => true
  | _ => false

/-- Modelled from the spec: the host scheduler treats every other error
escaping a refresh — `UpdateFailed` or the uncaught timeout (which the source
notes is "already handled by the data update coordinator") — as the generic
"update failed" condition, retried on the normal schedule. -/
def is_generic_failure : UpdateError → Bool
  | .configEntryAuthFailed => false
  | _ => true

/-- The account-balance payload; opaque to the coordinator (its fields are
only read by account sensors, which no coordinator operation inspects). -/
structure AccountBalance where
  payload : Nat
deriving DecidableEq, Repr

/-- The `UpdateFailed` message of the account coordinator
(coordinator.py lines 52-55). -/
def account_update_failed_message (msg : String) : String :=
  "Error communicating with EK API: " ++ msg

/-- The `UpdateFailed` message of the HOP coordinator
(coordinator.py lines 117-120). -/
def hop_update_failed_message (msg : String) : String :=
  "Error communicating with EK API: " ++ msg

/-- The `name` passed to the account coordinator's base constructor. -/
def account_coordinator_name : String := "Electric Kiwi Account Data"

/-- The `name` passed to the HOP coordinator's base constructor. -/
def hop_coordinator_name : String := "Electric Kiwi HOP Data"

/-- `ElectricKiwiAccountDataCoordinator._async_update_data`: run
`get_account_balance()` under `async_timeout.timeout(60)`; `AuthException`
becomes `ConfigEntryAuthFailed`, `ApiException` becomes `UpdateFailed` with
the wrapped message, a timeout escapes uncaught. -/
def account_async_update_data (call : RemoteCall AccountBalance) :
    Except UpdateError AccountBalance :=
  if 60 < call.duration then .error .timeoutError
  else
    match call.result with
    | .ok balance => .ok balance
    | .error .auth => .error .configEntryAuthFailed
    | .error (.api msg) => .error (.updateFailed (account_update_failed_message msg))

/-- Cached state of the account coordinator: its `data` snapshot. -/
structure AccountCoordState where
  data : Option AccountBalance
deriving DecidableEq, Repr

/-- Modelled from the spec: the host's generic scheduled-refresh primitive —
on success it replaces the cached snapshot with the value
`_async_update_data` returned; on any failure it leaves the snapshot as it
was and records the failure. -/
def account_refresh (st : AccountCoordState) (call : RemoteCall AccountBalance) :
    Except UpdateError AccountBalance × AccountCoordState :=
  match account_async_update_data call with
  | .ok balance => (.ok balance, ⟨some balance⟩)
  | .error e => (.error e, st)

/-- One selectable interval from the remote catalog: start and end
times-of-day and the integer `active` flag the source filters on. -/
structure Interval where
  start_time : Nat
  end_time : Nat
  active : Nat
deriving DecidableEq, Repr

/-- The raw interval catalog: `hop_intervals.intervals`, an insertion-ordered
mapping from the integer interval key to its `Interval`. -/
structure HopIntervals where
  intervals : List (Nat × Interval)
deriving DecidableEq, Repr

/-- The filtering applied right after the one-time catalog fetch
(coordinator.py lines 104-109): keep only entries with `active == 1`. -/
def filter_active (hi : HopIntervals) : HopIntervals :=
  ⟨hi.intervals.filter (fun pair => pair.2.active == 1)⟩

/-- Cached state of the HOP coordinator: the lazily populated catalog
(`hop_intervals`, `None` at construction), the `data` snapshot (selected
interval), and a count of `async_update_listeners` notifications issued. -/
structure HOPCoordState where
  hop_intervals : Option HopIntervals
  data : Option Hop
  listener_notifications : Nat
deriving DecidableEq, Repr

/-- `ElectricKiwiHOPDataCoordinator.__init__` sets `hop_intervals = None`
(no snapshot, no notifications yet). -/
def hop_init : HOPCoordState := ⟨none, none, 0⟩

/-- The label built by `get_hop_options`: `f"{v.start_time} - {v.end_time}"`. -/
def interval_label (v : Interval) : String :=
  toString v.start_time ++ " - " ++ toString v.end_time

/-- `get_hop_options` (coordinator.py lines 76-81): label-to-key pairs derived
from the cached catalog; `none` models the attribute error raised when the
catalog is still unpopulated. -/
def get_hop_options (st : HOPCoordState) : Option (List (String × Nat)) :=
  st.hop_intervals.map (fun hi => hi.intervals.map (fun p => (interval_label p.2, p.1)))

/-- `get_selected_hop` (coordinator.py lines 83-85): return `self.data`. -/
def get_selected_hop (st : HOPCoordState) : Option Hop :=
  st.data

/-- `self.async_update_listeners()`: synchronously notify all subscribers,
recorded here as a counter increment. -/
def async_update_listeners (st : HOPCoordState) : HOPCoordState :=
  { st with listener_notifications := st.listener_notifications + 1 }

/-- `async_update_hop` (coordinator.py lines 87-91): submit the key via
`post_hop`, store the returned value as `self.data`, notify listeners, and
return it.  There is no try/except: a raised `RemoteError` propagates as is
and nothing is assigned. -/
def async_update_hop (st : HOPCoordState) (post_hop : Nat → Except RemoteError Hop)
    (hop_interval : Nat) : Except RemoteError Hop × HOPCoordState :=
  match post_hop hop_interval with
  | .error e => (.error e, st)
  | .ok h => (.ok h, async_update_listeners { st with data := some h })

/-- `ElectricKiwiHOPDataCoordinator._async_update_data`
(coordinator.py lines 93-120): under one 60-second timeout spanning the whole
block, fetch-filter-cache the catalog when `hop_intervals is None`, then fetch
the selected interval; `AuthException` becomes `ConfigEntryAuthFailed`,
`ApiException` becomes `UpdateFailed`, a timeout escapes uncaught.  The
catalog assignment happens before the selection fetch, so a later failure in
the same cycle keeps the already-cached catalog. -/
def hop_async_update_data (st : HOPCoordState)
    (get_hop_intervals : RemoteCall HopIntervals) (get_hop : RemoteCall Hop) :
    Except UpdateError Hop × HOPCoordState :=
  match st.hop_intervals with
  | none =>
      if 60 < get_hop_intervals.duration then (.error .timeoutError, st)
      else
        match get_hop_intervals.result with
        | .error .auth => (.error .configEntryAuthFailed, st)
        | .error (.api msg) =>
            (.error (.updateFailed (hop_update_failed_message msg)), st)
        | .ok hi =>
            let st1 : HOPCoordState := { st with hop_intervals := some (filter_active hi) }
            if 60 < get_hop_intervals.duration + get_hop.duration then
              (.error .timeoutError, st1)
            else
              match get_hop.result with
              | .error .auth => (.error .configEntryAuthFailed, st1)
              | .error (.api msg) =>
                  (.error (.updateFailed (hop_update_failed_message msg)), st1)
              | .ok h => (.ok h, st1)
  | some _ =>
      if 60 < get_hop.duration then (.error .timeoutError, st)
      else
        match get_hop.result with
        | .error .auth => (.error .configEntryAuthFailed, st)
        | .error (.api msg) =>
            (.error (.updateFailed (hop_update_failed_message msg)), st)
        | .ok h => (.ok h, st)

/-- Modelled from the spec: the host's scheduled refresh around the HOP
`_async_update_data` — on success store the returned Hop as the snapshot and
notify subscribers; on failure keep the snapshot (the catalog field keeps
whatever `_async_update_data` left in it). -/
def hop_refresh (st : HOPCoordState)
    (get_hop_intervals : RemoteCall HopIntervals) (get_hop : RemoteCall Hop) :
    Except UpdateError Hop × HOPCoordState :=
  match hop_async_update_data st get_hop_intervals get_hop with
  | (.ok h, st1) => (.ok h, async_update_listeners { st1 with data := some h })
  | (.error e, st1) => (.error e, st1)

/-- One operation in a HOP coordinator's lifetime: a scheduled refresh (with
that cycle's two remote calls) or an explicit selection update. -/
inductive HOPOp
  | refresh (get_hop_intervals : RemoteCall HopIntervals) (get_hop : RemoteCall Hop)
  | updateHop (post_hop : Nat → Except RemoteError Hop) (hop_interval : Nat)

/-- State transition of one HOP coordinator operation. -/
def hop_step (st : HOPCoordState) : HOPOp → HOPCoordState
  | .refresh ci ch => (hop_refresh st ci ch).2
  | .updateHop post k => (async_update_hop st post k).2

/-- Run a sequence of HOP coordinator operations from a state. -/
def hop_run (st : HOPCoordState) (ops : List HOPOp) : HOPCoordState :=
  ops.foldl hop_step st

/-- A catalog fetch that does not yield a catalog: it times out under the
60-second bound or raises a remote error. -/
def catalog_fetch_fails (c : RemoteCall HopIntervals) : Bool :=
  decide (60 < c.duration) ||
    (match c.result with
     | .error _ => true
     | .ok _ => false)

/-- The second state component returned by the HOP `_async_update_data` never
changes the `data` snapshot: only the host-side wrapper writes it. -/
theorem hop_async_data_eq (st : HOPCoordState)
    (ci : RemoteCall HopIntervals) (ch : RemoteCall Hop) :
    ((hop_async_update_data st ci ch).2).data = st.data := by
  unfold hop_async_update_data
  repeat' split
  all_goals rfl

/-- With a populated catalog, the HOP `_async_update_data` leaves the whole
state untouched (the catalog branch is skipped and nothing is assigned). -/
theorem hop_async_populated_state (cat : HopIntervals) (d : Option Hop) (n : Nat)
    (ci : RemoteCall HopIntervals) (ch : RemoteCall Hop) :
    (hop_async_update_data ⟨some cat, d, n⟩ ci ch).2 = ⟨some cat, d, n⟩ := by
  unfold hop_async_update_data
  repeat' split
  all_goals first
    | rfl
    | simp_all

/-- The refresh wrapper only writes `data` and the notification counter, so
the catalog after a refresh is whatever `_async_update_data` left in it. -/
theorem hop_refresh_state_catalog (st : HOPCoordState)
    (ci : RemoteCall HopIntervals) (ch : RemoteCall Hop) :
    ((hop_refresh st ci ch).2).hop_intervals
      = ((hop_async_update_data st ci ch).2).hop_intervals := by
  unfold hop_refresh
  cases h : hop_async_update_data st ci ch with
  | mk r s1 => cases r <;> simp [async_update_listeners]

/-- The outcome of the account refresh is the outcome of its
`_async_update_data`. -/
theorem account_refresh_result (st : AccountCoordState)
    (call : RemoteCall AccountBalance) :
    (account_refresh st call).1 = account_async_update_data call := by
  unfold account_refresh
  cases h : account_async_update_data call <;> simp

/-- The outcome of the HOP refresh is the outcome of its
`_async_update_data`. -/
theorem hop_refresh_result (st : HOPCoordState)
    (ci : RemoteCall HopIntervals) (ch : RemoteCall Hop) :
    (hop_refresh st ci ch).1 = (hop_async_update_data st ci ch).1 := by
  unfold hop_refresh
  cases h : hop_async_update_data st ci ch with
  | mk r s1 => cases r <;> simp

/-- When the catalog is unpopulated and the catalog fetch fails (timeout or
remote error), the HOP `_async_update_data` leaves the state untouched, never
looks at the selection call, and returns an error. -/
theorem hop_async_catalog_fail (d : Option Hop) (n : Nat)
    (ci : RemoteCall HopIntervals) (ch ch2 : RemoteCall Hop)
    (hfail : catalog_fetch_fails ci = true) :
    (hop_async_update_data ⟨none, d, n⟩ ci ch).2 = ⟨none, d, n⟩
    ∧ hop_async_update_data ⟨none, d, n⟩ ci ch
        = hop_async_update_data ⟨none, d, n⟩ ci ch2
    ∧ ∃ e, (hop_async_update_data ⟨none, d, n⟩ ci ch).1 = .error e := by
  obtain ⟨cid, cir⟩ := ci
  unfold catalog_fetch_fails at hfail
  by_cases h60 : 60 < cid
  · refine ⟨?_, ?_, .timeoutError, ?_⟩ <;> simp [hop_async_update_data, h60]
  · simp [h60] at hfail
    cases cir with
    | ok hi0 => simp at hfail
    | error e =>
        cases e with
        | auth =>
            refine ⟨?_, ?_, .configEntryAuthFailed, ?_⟩ <;>
              simp [hop_async_update_data, h60]
        | api msg =>
            refine ⟨?_, ?_, .updateFailed (hop_update_failed_message msg), ?_⟩ <;>
              simp [hop_async_update_data, h60]

/-- A successful catalog fetch from the unpopulated state caches exactly the
active-filtered catalog, whatever the selection call then does. -/
theorem hop_async_unpopulated_ok_state (d : Option Hop) (n : Nat)
    (cid : Nat) (hi0 : HopIntervals) (ch : RemoteCall Hop) (h60 : ¬ 60 < cid) :
    (hop_async_update_data ⟨none, d, n⟩ ⟨cid, .ok hi0⟩ ch).2
      = ⟨some (filter_active hi0), d, n⟩ := by
  obtain ⟨chd, chr⟩ := ch
  unfold hop_async_update_data
  simp only [h60]
  by_cases h2 : 60 < cid + chd
  · simp [h2]
  · simp only [h2]
    cases chr with
    | ok h => simp
    | error e => cases e <;> simp

/-- A catalog populated in the state survives any single HOP coordinator
operation unchanged. -/
theorem hop_step_keeps_catalog (st : HOPCoordState) (op : HOPOp)
    (cat : HopIntervals) (h : st.hop_intervals = some cat) :
    (hop_step st op).hop_intervals = some cat := by
  obtain ⟨hi, d, n⟩ := st
  obtain rfl : hi = some cat := h
  cases op with
  | refresh ci ch =>
      show ((hop_refresh ⟨some cat, d, n⟩ ci ch).2).hop_intervals = some cat
      rw [hop_refresh_state_catalog, hop_async_populated_state]
  | updateHop post k =>
      show ((async_update_hop ⟨some cat, d, n⟩ post k).2).hop_intervals = some cat
      unfold async_update_hop
      cases post k <;> simp [async_update_listeners]

/-- A catalog populated in the state survives any sequence of HOP coordinator
operations unchanged. -/
theorem hop_run_keeps_catalog (ops : List HOPOp) : ∀ (st : HOPCoordState)
    (cat : HopIntervals), st.hop_intervals = some cat →
    (hop_run st ops).hop_intervals = some cat := by
  induction ops with
  | nil => intro st cat h; simpa [hop_run] using h
  | cons op rest ih =>
      intro st cat h
      show (hop_run (hop_step st op) rest).hop_intervals = some cat
      exact ih _ _ (hop_step_keeps_catalog st op cat h)

/-- C1: for every selected interval and current instant, both HOP sensor
timestamps pivot on the interval's end time: when today's end time is strictly
before now, each derived value lands on tomorrow (day + 1) at its own
time-of-day, otherwise on today — so start and end roll together. -/
theorem hop_sensor_day_rollover (hop : Hop) (now : DateTime) :
    hop_native_value hop_start_sensor hop now =
      (if DateTime.ltb (datetime_combine now.day hop.end_time) now
        then DateTime.mk (now.day + 1) hop.start_time
        else DateTime.mk now.day hop.start_time)
    ∧ hop_native_value hop_end_sensor hop now =
      (if DateTime.ltb (datetime_combine now.day hop.end_time) now
        then DateTime.mk (now.day + 1) hop.end_time
        else DateTime.mk now.day hop.end_time) := by
  constructor <;>
    · simp only [hop_native_value, hop_start_sensor, hop_end_sensor]
      by_cases h : DateTime.ltb (datetime_combine now.day hop.end_time) now = true <;>
        simp [h, DateTime.addDays, datetime_combine]

/-- C2 counterexample: at the concrete api error "boom", the HOP refresh and
the account refresh raise `UpdateFailed` with the very same message — the two
domains' generic failure messages do not differ, contrary to the claim. -/
theorem hop_account_failure_message_identical :
    (hop_refresh hop_init ⟨1, .ok ⟨[]⟩⟩ ⟨1, .error (.api "boom")⟩).1
      = .error (.updateFailed "Error communicating with EK API: boom")
    ∧ (account_refresh ⟨none⟩ ⟨1, .error (.api "boom")⟩).1
      = .error (.updateFailed "Error communicating with EK API: boom")
    ∧ hop_update_failed_message "boom" = account_update_failed_message "boom" :=
  ⟨rfl, rfl, rfl⟩

/-- C2 (amended): generic failures of the two coordinators carry the identical
message format "Error communicating with EK API: ..." — the HOP domain is not
named in the failure message; the domains are distinguished only by the
coordinators' `name` fields, which do differ. -/
theorem hop_account_failure_message_shared_format :
    (∀ msg, hop_update_failed_message msg = account_update_failed_message msg)
    ∧ hop_coordinator_name ≠ account_coordinator_name :=
  ⟨fun _ => rfl, by decide⟩

/-- C3: a failed account refresh leaves the account snapshot untouched; a
failed HOP refresh leaves the selected-interval snapshot untouched; and when
the catalog fetch itself fails from the unpopulated state, the whole state is
untouched, the catalog stays unpopulated, and the selection fetch is never
consulted (the refresh result does not depend on it). -/
theorem refresh_failure_preserves_state
    (stA : AccountCoordState) (callA : RemoteCall AccountBalance)
    (stH : HOPCoordState) (ci : RemoteCall HopIntervals) (ch : RemoteCall Hop) :
    (∀ e, (account_refresh stA callA).1 = .error e →
      (account_refresh stA callA).2 = stA)
    ∧ (∀ e, (hop_refresh stH ci ch).1 = .error e →
        (hop_refresh stH ci ch).2.data = stH.data)
    ∧ (stH.hop_intervals = none → catalog_fetch_fails ci = true →
        (hop_refresh stH ci ch).2 = stH
        ∧ (hop_refresh stH ci ch).2.hop_intervals = none
        ∧ ∀ ch2, hop_refresh stH ci ch = hop_refresh stH ci ch2) := by
  refine ⟨?_, ?_, ?_⟩
  · intro e he
    unfold account_refresh at he ⊢
    cases h : account_async_update_data callA with
    | ok b => rw [h] at he; simp at he
    | error e2 => rfl
  · intro e he
    have hdata := hop_async_data_eq stH ci ch
    unfold hop_refresh at he ⊢
    cases h : hop_async_update_data stH ci ch with
    | mk r s1 =>
        rw [h] at hdata
        rw [h] at he
        cases r with
        | ok hh => exact Except.noConfusion he
        | error e2 => exact hdata
  · intro hnone hfail
    obtain ⟨hi, d, n⟩ := stH
    obtain rfl : hi = none := hnone
    obtain ⟨hstate, -, e, herr⟩ := hop_async_catalog_fail d n ci ch ch hfail
    have hfull : hop_async_update_data ⟨none, d, n⟩ ci ch = (.error e, ⟨none, d, n⟩) := by
      have hp : hop_async_update_data ⟨none, d, n⟩ ci ch
          = ((hop_async_update_data ⟨none, d, n⟩ ci ch).1,
             (hop_async_update_data ⟨none, d, n⟩ ci ch).2) := rfl
      rw [hp, herr, hstate]
    refine ⟨?_, ?_, ?_⟩
    · unfold hop_refresh; rw [hfull]
    · unfold hop_refresh; rw [hfull]
    · intro ch2
      obtain ⟨-, hindep, -⟩ := hop_async_catalog_fail d n ci ch ch2 hfail
      unfold hop_refresh; rw [hindep]

/-- Witness for C3 at concrete inputs: an api failure on the account side, an
auth failure of the catalog fetch on the HOP side. -/
theorem refresh_failure_preserves_state_witness :
    (account_refresh ⟨some ⟨5⟩⟩ ⟨1, .error (.api "x")⟩).2 = ⟨some ⟨5⟩⟩
    ∧ (hop_refresh hop_init ⟨0, .error .auth⟩ ⟨0, .ok ⟨540, 600⟩⟩).2.data
        = hop_init.data
    ∧ (hop_refresh hop_init ⟨0, .error .auth⟩ ⟨0, .ok ⟨540, 600⟩⟩).2 = hop_init
    ∧ (hop_refresh hop_init ⟨0, .error .auth⟩ ⟨0, .ok ⟨540, 600⟩⟩).2.hop_intervals
        = none
    ∧ hop_refresh hop_init ⟨0, .error .auth⟩ ⟨0, .ok ⟨540, 600⟩⟩
        = hop_refresh hop_init ⟨0, .error .auth⟩ ⟨61, .ok ⟨1, 2⟩⟩ := by
  have h := refresh_failure_preserves_state ⟨some ⟨5⟩⟩ ⟨1, .error (.api "x")⟩
    hop_init ⟨0, .error .auth⟩ ⟨0, .ok ⟨540, 600⟩⟩
  exact ⟨h.1 (.updateFailed (account_update_failed_message "x")) rfl,
         h.2.1 .configEntryAuthFailed rfl,
         (h.2.2 rfl rfl).1, (h.2.2 rfl rfl).2.1,
         (h.2.2 rfl rfl).2.2 ⟨61, .ok ⟨1, 2⟩⟩⟩

/-- C4: with a populated catalog, a refresh never consults the interval-set
fetch (its outcome does not depend on that call); the populated mapping
survives any sequence of coordinator operations unchanged; and at construction
the catalog is unpopulated. -/
theorem intervals_catalog_fetched_once (cat : HopIntervals) (d : Option Hop)
    (n : Nat) (ci ci2 : RemoteCall HopIntervals) (ch : RemoteCall Hop)
    (ops : List HOPOp) :
    hop_refresh ⟨some cat, d, n⟩ ci ch = hop_refresh ⟨some cat, d, n⟩ ci2 ch
    ∧ (hop_run ⟨some cat, d, n⟩ ops).hop_intervals = some cat
    ∧ hop_init.hop_intervals = none :=
  ⟨rfl, hop_run_keeps_catalog ops ⟨some cat, d, n⟩ cat rfl, rfl⟩

/-- C5: whenever a refresh from the unpopulated state caches a catalog, every
cached entry has active flag 1, and every label-to-key pair `get_hop_options`
then derives comes from such an active entry — labels of inactive intervals
never appear. -/
theorem get_options_active_only
    (stH : HOPCoordState) (ci : RemoteCall HopIntervals) (ch : RemoteCall Hop)
    (cat : HopIntervals)
    (hnone : stH.hop_intervals = none)
    (hpop : ((hop_refresh stH ci ch).2).hop_intervals = some cat) :
    (∀ p ∈ cat.intervals, p.2.active = 1)
    ∧ ∀ opts, get_hop_options (hop_refresh stH ci ch).2 = some opts →
        ∀ x ∈ opts, ∃ p, p ∈ cat.intervals ∧ p.2.active = 1
          ∧ x = (interval_label p.2, p.1) := by
  obtain ⟨hi, d, n⟩ := stH
  obtain rfl : hi = none := hnone
  have hpopR := hpop
  rw [hop_refresh_state_catalog] at hpop
  have hcat : ∃ hi0, cat = filter_active hi0 := by
    by_cases hfail : catalog_fetch_fails ci = true
    · obtain ⟨hstate, -, -⟩ := hop_async_catalog_fail d n ci ch ch hfail
      rw [hstate] at hpop
      simp at hpop
    · obtain ⟨cid, cir⟩ := ci
      cases cir with
      | error e => exact absurd (by simp [catalog_fetch_fails]) hfail
      | ok hi0 =>
          have h60 : ¬ 60 < cid := by
            intro hlt
            exact hfail (by simp [catalog_fetch_fails, hlt])
          rw [hop_async_unpopulated_ok_state d n cid hi0 ch h60] at hpop
          exact ⟨hi0, by simpa using hpop.symm⟩
  obtain ⟨hi0, rfl⟩ := hcat
  have hact : ∀ p ∈ (filter_active hi0).intervals, p.2.active = 1 := by
    intro p hp
    unfold filter_active at hp
    simp only [List.mem_filter] at hp
    simpa using hp.2
  refine ⟨hact, ?_⟩
  intro opts hopts x hx
  unfold get_hop_options at hopts
  rw [hpopR] at hopts
  simp only [Option.map_some', Option.some.injEq] at hopts
  subst hopts
  obtain ⟨p, hp, hxp⟩ := List.mem_map.mp hx
  exact ⟨p, hp, hact p hp, hxp.symm⟩

/-- Witness for C5: a two-entry raw catalog (one active, one inactive) leaves
exactly the active interval, and the derived option pair points at it. -/
theorem get_options_active_only_witness :
    Interval.active ⟨540, 600, 1⟩ = 1
    ∧ ∃ p, p ∈ (⟨[(1, ⟨540, 600, 1⟩)]⟩ : HopIntervals).intervals
        ∧ p.2.active = 1
        ∧ (interval_label ⟨540, 600, 1⟩, (1 : Nat)) = (interval_label p.2, p.1) := by
  have h := get_options_active_only hop_init
    ⟨1, .ok ⟨[(1, ⟨540, 600, 1⟩), (2, ⟨0, 60, 0⟩)]⟩⟩ ⟨1, .ok ⟨540, 600⟩⟩
    ⟨[(1, ⟨540, 600, 1⟩)]⟩ rfl rfl
  exact ⟨h.1 (1, ⟨540, 600, 1⟩) (by simp),
         h.2 [(interval_label ⟨540, 600, 1⟩, 1)] rfl
           (interval_label ⟨540, 600, 1⟩, 1) (by simp)⟩

/-- C6: a successful `async_update_hop` returns exactly the server's returned
value, stores it as the snapshot (so an immediate `get_selected_hop` reads it
back), synchronously notifies listeners once, and leaves the catalog alone. -/
theorem update_selection_write_through (st : HOPCoordState)
    (post_hop : Nat → Except RemoteError Hop) (k : Nat) (h : Hop)
    (hok : post_hop k = .ok h) :
    (async_update_hop st post_hop k).1 = .ok h
    ∧ (async_update_hop st post_hop k).2.data = some h
    ∧ get_selected_hop (async_update_hop st post_hop k).2 = some h
    ∧ (async_update_hop st post_hop k).2.listener_notifications
        = st.listener_notifications + 1
    ∧ (async_update_hop st post_hop k).2.hop_intervals = st.hop_intervals := by
  unfold async_update_hop
  rw [hok]
  exact ⟨rfl, rfl, rfl, rfl, rfl⟩

/-- Witness for C6 at a concrete key and server reply. -/
theorem update_selection_write_through_witness :
    (async_update_hop hop_init (fun _ => .ok ⟨540, 600⟩) 3).1 = .ok ⟨540, 600⟩
    ∧ (async_update_hop hop_init (fun _ => .ok ⟨540, 600⟩) 3).2.data
        = some ⟨540, 600⟩
    ∧ get_selected_hop (async_update_hop hop_init (fun _ => .ok ⟨540, 600⟩) 3).2
        = some ⟨540, 600⟩
    ∧ (async_update_hop hop_init (fun _ => .ok ⟨540, 600⟩) 3).2.listener_notifications
        = hop_init.listener_notifications + 1
    ∧ (async_update_hop hop_init (fun _ => .ok ⟨540, 600⟩) 3).2.hop_intervals
        = hop_init.hop_intervals :=
  update_selection_write_through hop_init (fun _ => .ok ⟨540, 600⟩) 3 ⟨540, 600⟩ rfl

/-- C7: when the remote submission inside `async_update_hop` fails, the very
error is returned to the caller and the whole coordinator state — in
particular the selected interval — is exactly what it was before. -/
theorem update_selection_failure_atomic (st : HOPCoordState)
    (post_hop : Nat → Except RemoteError Hop) (k : Nat) (e : RemoteError)
    (he : post_hop k = .error e) :
    async_update_hop st post_hop k = (.error e, st) := by
  unfold async_update_hop
  rw [he]

/-- Witness for C7 at a concrete api failure. -/
theorem update_selection_failure_atomic_witness :
    async_update_hop hop_init (fun _ => .error (.api "down")) 3
      = (.error (.api "down"), hop_init) :=
  update_selection_failure_atomic hop_init (fun _ => .error (.api "down")) 3
    (.api "down") rfl

/-- C10: `async_update_hop` performs no error normalization — an auth error
from `post_hop` comes back as the raw auth error (not remapped to the re-auth
condition) and an api error comes back as the raw api error with its message
(not remapped to the "update failed" condition). -/
theorem update_selection_no_error_normalization (st : HOPCoordState)
    (post_hop : Nat → Except RemoteError Hop) (k : Nat) :
    (post_hop k = .error .auth →
      (async_update_hop st post_hop k).1 = .error RemoteError.auth)
    ∧ ∀ msg, post_hop k = .error (.api msg) →
        (async_update_hop st post_hop k).1 = .error (RemoteError.api msg) := by
  constructor
  · intro h
    unfold async_update_hop
    rw [h]
  · intro msg h
    unfold async_update_hop
    rw [h]

/-- Witness for C10: one auth failure and one api failure, both returned
raw. -/
theorem update_selection_no_error_normalization_witness :
    (async_update_hop hop_init (fun _ => .error .auth) 1).1
      = .error RemoteError.auth
    ∧ (async_update_hop hop_init (fun _ => .error (.api "oops")) 1).1
        = .error (RemoteError.api "oops") :=
  ⟨(update_selection_no_error_normalization hop_init
      (fun _ => .error .auth) 1).1 rfl,
   (update_selection_no_error_normalization hop_init
      (fun _ => .error (.api "oops")) 1).2 "oops" rfl⟩

/-- C8: in both coordinators' refreshes, an auth error on any remote call
(within the timeout) is classified as `ConfigEntryAuthFailed` and an api error
as `UpdateFailed` carrying the underlying error's text — covering the account
call, the HOP catalog call, the HOP selection call after a fresh catalog, and
the HOP selection call with a populated catalog — and the two conditions are
distinct values, never confused. -/
theorem refresh_error_classification
    (stA : AccountCoordState) (c : RemoteCall AccountBalance)
    (stH : HOPCoordState) (ci : RemoteCall HopIntervals) (ch : RemoteCall Hop) :
    (c.duration ≤ 60 → c.result = .error .auth →
      (account_refresh stA c).1 = .error .configEntryAuthFailed)
    ∧ (∀ msg, c.duration ≤ 60 → c.result = .error (.api msg) →
        (account_refresh stA c).1
          = .error (.updateFailed (account_update_failed_message msg)))
    ∧ (stH.hop_intervals = none → ci.duration ≤ 60 → ci.result = .error .auth →
        (hop_refresh stH ci ch).1 = .error .configEntryAuthFailed)
    ∧ (∀ msg, stH.hop_intervals = none → ci.duration ≤ 60 →
        ci.result = .error (.api msg) →
        (hop_refresh stH ci ch).1
          = .error (.updateFailed (hop_update_failed_message msg)))
    ∧ (∀ hi0, stH.hop_intervals = none → ci.result = .ok hi0 →
        ci.duration + ch.duration ≤ 60 → ch.result = .error .auth →
        (hop_refresh stH ci ch).1 = .error .configEntryAuthFailed)
    ∧ (∀ hi0 msg, stH.hop_intervals = none → ci.result = .ok hi0 →
        ci.duration + ch.duration ≤ 60 → ch.result = .error (.api msg) →
        (hop_refresh stH ci ch).1
          = .error (.updateFailed (hop_update_failed_message msg)))
    ∧ (∀ cat, stH.hop_intervals = some cat → ch.duration ≤ 60 →
        ch.result = .error .auth →
        (hop_refresh stH ci ch).1 = .error .configEntryAuthFailed)
    ∧ (∀ cat msg, stH.hop_intervals = some cat → ch.duration ≤ 60 →
        ch.result = .error (.api msg) →
        (hop_refresh stH ci ch).1
          = .error (.updateFailed (hop_update_failed_message msg)))
    ∧ (∀ msg, (UpdateError.configEntryAuthFailed : UpdateError)
        ≠ .updateFailed msg) := by
  refine ⟨?_, ?_, ?_, ?_, ?_, ?_, ?_, ?_, ?_⟩
  · intro h60 hres
    rw [account_refresh_result]
    unfold account_async_update_data
    simp [Nat.not_lt.mpr h60, hres]
  · intro msg h60 hres
    rw [account_refresh_result]
    unfold account_async_update_data
    simp [Nat.not_lt.mpr h60, hres]
  · intro hnone h60 hres
    rw [hop_refresh_result]
    obtain ⟨hi, d, n⟩ := stH
    obtain rfl : hi = none := hnone
    unfold hop_async_update_data
    simp [Nat.not_lt.mpr h60, hres]
  · intro msg hnone h60 hres
    rw [hop_refresh_result]
    obtain ⟨hi, d, n⟩ := stH
    obtain rfl : hi = none := hnone
    unfold hop_async_update_data
    simp [Nat.not_lt.mpr h60, hres]
  · intro hi0 hnone hok hsum hres
    rw [hop_refresh_result]
    obtain ⟨hi, d, n⟩ := stH
    obtain rfl : hi = none := hnone
    have h1 : ¬ 60 < ci.duration :=
      Nat.not_lt.mpr (le_trans (Nat.le_add_right _ _) hsum)
    have h2 : ¬ 60 < ci.duration + ch.duration := Nat.not_lt.mpr hsum
    unfold hop_async_update_data
    simp [h1, h2, hok, hres]
  · intro hi0 msg hnone hok hsum hres
    rw [hop_refresh_result]
    obtain ⟨hi, d, n⟩ := stH
    obtain rfl : hi = none := hnone
    have h1 : ¬ 60 < ci.duration :=
      Nat.not_lt.mpr (le_trans (Nat.le_add_right _ _) hsum)
    have h2 : ¬ 60 < ci.duration + ch.duration := Nat.not_lt.mpr hsum
    unfold hop_async_update_data
    simp [h1, h2, hok, hres]
  · intro cat hsome h60 hres
    rw [hop_refresh_result]
    obtain ⟨hi, d, n⟩ := stH
    obtain rfl : hi = some cat := hsome
    unfold hop_async_update_data
    simp [Nat.not_lt.mpr h60, hres]
  · intro cat msg hsome h60 hres
    rw [hop_refresh_result]
    obtain ⟨hi, d, n⟩ := stH
    obtain rfl : hi = some cat := hsome
    unfold hop_async_update_data
    simp [Nat.not_lt.mpr h60, hres]
  · intro msg h
    exact UpdateError.noConfusion h

/-- Witness for C8: each classification conjunct exercised at a concrete
failing call. -/
theorem refresh_error_classification_witness :
    (account_refresh ⟨none⟩ ⟨1, .error .auth⟩).1 = .error .configEntryAuthFailed
    ∧ (account_refresh ⟨none⟩ ⟨1, .error (.api "a")⟩).1
        = .error (.updateFailed (account_update_failed_message "a"))
    ∧ (hop_refresh hop_init ⟨1, .error .auth⟩ ⟨1, .ok ⟨540, 600⟩⟩).1
        = .error .configEntryAuthFailed
    ∧ (hop_refresh hop_init ⟨1, .error (.api "b")⟩ ⟨1, .ok ⟨540, 600⟩⟩).1
        = .error (.updateFailed (hop_update_failed_message "b"))
    ∧ (hop_refresh hop_init ⟨1, .ok ⟨[]⟩⟩ ⟨1, .error .auth⟩).1
        = .error .configEntryAuthFailed
    ∧ (hop_refresh hop_init ⟨1, .ok ⟨[]⟩⟩ ⟨1, .error (.api "c")⟩).1
        = .error (.updateFailed (hop_update_failed_message "c"))
    ∧ (hop_refresh ⟨some ⟨[]⟩, none, 0⟩ ⟨1, .ok ⟨[]⟩⟩ ⟨1, .error .auth⟩).1
        = .error .configEntryAuthFailed
    ∧ (hop_refresh ⟨some ⟨[]⟩, none, 0⟩ ⟨1, .ok ⟨[]⟩⟩ ⟨1, .error (.api "d")⟩).1
        = .error (.updateFailed (hop_update_failed_message "d"))
    ∧ (UpdateError.configEntryAuthFailed : UpdateError) ≠ .updateFailed "x" :=
  ⟨(refresh_error_classification ⟨none⟩ ⟨1, .error .auth⟩ hop_init
      ⟨1, .error .auth⟩ ⟨1, .ok ⟨540, 600⟩⟩).1 (by decide) rfl,
   (refresh_error_classification ⟨none⟩ ⟨1, .error (.api "a")⟩ hop_init
      ⟨1, .error .auth⟩ ⟨1, .ok ⟨540, 600⟩⟩).2.1 "a" (by decide) rfl,
   (refresh_error_classification ⟨none⟩ ⟨1, .error .auth⟩ hop_init
      ⟨1, .error .auth⟩ ⟨1, .ok ⟨540, 600⟩⟩).2.2.1 rfl (by decide) rfl,
   (refresh_error_classification ⟨none⟩ ⟨1, .error .auth⟩ hop_init
      ⟨1, .error (.api "b")⟩ ⟨1, .ok ⟨540, 600⟩⟩).2.2.2.1 "b" rfl (by decide) rfl,
   (refresh_error_classification ⟨none⟩ ⟨1, .error .auth⟩ hop_init
      ⟨1, .ok ⟨[]⟩⟩ ⟨1, .error .auth⟩).2.2.2.2.1 ⟨[]⟩ rfl rfl (by decide) rfl,
   (refresh_error_classification ⟨none⟩ ⟨1, .error .auth⟩ hop_init
      ⟨1, .ok ⟨[]⟩⟩ ⟨1, .error (.api "c")⟩).2.2.2.2.2.1 ⟨[]⟩ "c" rfl rfl
      (by decide) rfl,
   (refresh_error_classification ⟨none⟩ ⟨1, .error .auth⟩
      ⟨some ⟨[]⟩, none, 0⟩ ⟨1, .ok ⟨[]⟩⟩ ⟨1, .error .auth⟩).2.2.2.2.2.2.1
      ⟨[]⟩ rfl (by decide) rfl,
   (refresh_error_classification ⟨none⟩ ⟨1, .error .auth⟩
      ⟨some ⟨[]⟩, none, 0⟩ ⟨1, .ok ⟨[]⟩⟩ ⟨1, .error (.api "d")⟩).2.2.2.2.2.2.2.1
      ⟨[]⟩ "d" rfl (by decide) rfl,
   (refresh_error_classification ⟨none⟩ ⟨1, .error .auth⟩ hop_init
      ⟨1, .error .auth⟩ ⟨1, .ok ⟨540, 600⟩⟩).2.2.2.2.2.2.2.2 "x"⟩

/-- C9: every remote call in a refresh runs under the 60-second bound, and
blowing the bound — on the account call, on the HOP catalog call, across the
two HOP calls of one cycle, or on the selection call with a populated
catalog — yields the uncaught timeout error, which the host classifies as a
generic failure and never as the re-auth condition. -/
theorem refresh_timeout_generic
    (stA : AccountCoordState) (c : RemoteCall AccountBalance)
    (stH : HOPCoordState) (ci : RemoteCall HopIntervals) (ch : RemoteCall Hop) :
    (60 < c.duration → (account_refresh stA c).1 = .error .timeoutError)
    ∧ (stH.hop_intervals = none → 60 < ci.duration →
        (hop_refresh stH ci ch).1 = .error .timeoutError)
    ∧ (∀ hi0, stH.hop_intervals = none → ci.result = .ok hi0 →
        ¬ 60 < ci.duration → 60 < ci.duration + ch.duration →
        (hop_refresh stH ci ch).1 = .error .timeoutError)
    ∧ (∀ cat, stH.hop_intervals = some cat → 60 < ch.duration →
        (hop_refresh stH ci ch).1 = .error .timeoutError)
    ∧ is_generic_failure .timeoutError = true
    ∧ is_reauth_condition .timeoutError = false
    ∧ UpdateError.timeoutError ≠ .configEntryAuthFailed := by
  refine ⟨?_, ?_, ?_, ?_, rfl, rfl, fun h => UpdateError.noConfusion h⟩
  · intro h60
    rw [account_refresh_result]
    unfold account_async_update_data
    simp [h60]
  · intro hnone h60
    rw [hop_refresh_result]
    obtain ⟨hi, d, n⟩ := stH
    obtain rfl : hi = none := hnone
    unfold hop_async_update_data
    simp [h60]
  · intro hi0 hnone hok h1 h2
    rw [hop_refresh_result]
    obtain ⟨hi, d, n⟩ := stH
    obtain rfl : hi = none := hnone
    unfold hop_async_update_data
    simp [h1, h2, hok]
  · intro cat hsome h60
    rw [hop_refresh_result]
    obtain ⟨hi, d, n⟩ := stH
    obtain rfl : hi = some cat := hsome
    unfold hop_async_update_data
    simp [h60]

/-- Witness for C9: each timeout arrangement exercised at concrete
durations. -/
theorem refresh_timeout_generic_witness :
    (account_refresh ⟨none⟩ ⟨61, .ok ⟨0⟩⟩).1 = .error .timeoutError
    ∧ (hop_refresh hop_init ⟨61, .ok ⟨[]⟩⟩ ⟨1, .ok ⟨540, 600⟩⟩).1
        = .error .timeoutError
    ∧ (hop_refresh hop_init ⟨30, .ok ⟨[]⟩⟩ ⟨31, .ok ⟨540, 600⟩⟩).1
        = .error .timeoutError
    ∧ (hop_refresh ⟨some ⟨[]⟩, none, 0⟩ ⟨1, .ok ⟨[]⟩⟩ ⟨61, .ok ⟨540, 600⟩⟩).1
        = .error .timeoutError
    ∧ is_generic_failure .timeoutError = true
    ∧ is_reauth_condition .timeoutError = false
    ∧ UpdateError.timeoutError ≠ .configEntryAuthFailed :=
  ⟨(refresh_timeout_generic ⟨none⟩ ⟨61, .ok ⟨0⟩⟩ hop_init ⟨61, .ok ⟨[]⟩⟩
      ⟨1, .ok ⟨540, 600⟩⟩).1 (by decide),
   (refresh_timeout_generic ⟨none⟩ ⟨61, .ok ⟨0⟩⟩ hop_init ⟨61, .ok ⟨[]⟩⟩
      ⟨1, .ok ⟨540, 600⟩⟩).2.1 rfl (by decide),
   (refresh_timeout_generic ⟨none⟩ ⟨61, .ok ⟨0⟩⟩ hop_init ⟨30, .ok ⟨[]⟩⟩
      ⟨31, .ok ⟨540, 600⟩⟩).2.2.1 ⟨[]⟩ rfl rfl (by decide) (by decide),
   (refresh_timeout_generic ⟨none⟩ ⟨61, .ok ⟨0⟩⟩ ⟨some ⟨[]⟩, none, 0⟩
      ⟨1, .ok ⟨[]⟩⟩ ⟨61, .ok ⟨540, 600⟩⟩).2.2.2.1 ⟨[]⟩ rfl (by decide),
   (refresh_timeout_generic ⟨none⟩ ⟨61, .ok ⟨0⟩⟩ hop_init ⟨61, .ok ⟨[]⟩⟩
      ⟨1, .ok ⟨540, 600⟩⟩).2.2.2.2.1,
   (refresh_timeout_generic ⟨none⟩ ⟨61, .ok ⟨0⟩⟩ hop_init ⟨61, .ok ⟨[]⟩⟩
      ⟨1, .ok ⟨540, 600⟩⟩).2.2.2.2.2.1,
   (refresh_timeout_generic ⟨none⟩ ⟨61, .ok ⟨0⟩⟩ hop_init ⟨61, .ok ⟨[]⟩⟩
      ⟨1, .ok ⟨540, 600⟩⟩).2.2.2.2.2.2⟩

end ElectricKiwi
